import Mathlib

/-!
Verification of the coupon-pass generation service (`src/app.js`).

The live code (lines 1–210 of `app.js`; everything below is commented-out
history) is shallowly embedded here:

* `parseRGBColor` — the regex-based color parser (`app.js:21-29`), with the
  regex `rgb\((\d+),\s*(\d+),\s*(\d+)\)` embedded as a deterministic
  leftmost-position matcher (`findRGB`/`tryMatch`).  Backtracking never helps
  for this pattern (`\d+` is always followed by a non-digit, `\s*` by a
  non-whitespace), so the greedy deterministic matcher has exactly the
  semantics of the JavaScript regex.
* `buildPassJson` — the manifest construction inside the
  `POST /generate-pass` handler (`app.js:120-152`).
* `generatePass` — the whole handler (`app.js:96-204`), with the external
  environment (the clock, the host, image-processing and signing outcomes)
  passed in as an explicit `Env`, and the scratch-file side effects of
  `processBase64Image` (`app.js:32-84`) and `cleanupFiles` (`app.js:87-93`)
  tracked as explicit lists of paths.
-/

namespace PassApp

/-! ## Characters: `\d` and `\s` of the JavaScript regex -/

/-- The regex class `\d`, exactly the ASCII digits `0`–`9`. -/
def isDigitC (c : Char) : Bool := 48 ≤ c.toNat && c.toNat ≤ 57

/-- The regex class `\s`: JavaScript whitespace (tab, LF, VT, FF, CR, space,
NBSP, line/paragraph separator, BOM; the other Unicode `Space_Separator`
characters are omitted — none of the claims involve them). -/
def isJsWs (c : Char) : Bool :=
  c.toNat = 9 || c.toNat = 10 || c.toNat = 11 || c.toNat = 12 ||
  c.toNat = 13 || c.toNat = 32 || c.toNat = 160 ||
  c.toNat = 8232 || c.toNat = 8233 || c.toNat = 65279

/-- Numeric value of a decimal digit character. -/
def digitVal (c : Char) : Nat := c.toNat - 48

/-- The value `parseInt` reads from a (nonempty) run of decimal digits. -/
def digitsVal (ds : List Char) : Nat := ds.foldl (fun a c => 10 * a + digitVal c) 0

/-! ## The color parser (`app.js:17-29`) -/

/-- An RGB triple as produced by `parseRGBColor` (`app.js:24-28`). -/
structure Color where
  r : Nat
  g : Nat
  b : Nat
  deriving DecidableEq, Repr

/-- Line 18 of `app.js`: `const DEFAULT_BACKGROUND_COLOR = "rgb(41, 128, 185)"`. -/
def DEFAULT_BACKGROUND_COLOR : String := "rgb(41, 128, 185)"

/-- Maximal run of `\d` characters at the head of the input, with the rest. -/
def takeDigits : List Char → List Char × List Char
  | [] => ([], [])
  | c :: cs =>
    if isDigitC c then
      let p := takeDigits cs
      (c :: p.1, p.2)
    else ([], c :: cs)

/-- Skip the maximal run of `\s` characters (the regex piece `\s*`). -/
def skipWs : List Char → List Char
  | [] => []
  | c :: cs => if isJsWs c then skipWs cs else c :: cs

/-- Try to match `rgb\((\d+),\s*(\d+),\s*(\d+)\)` starting exactly at the head
of the input; on success return the three captured values (as `parseInt`
reads them) and the remaining input. -/
def tryMatch (cs : List Char) : Option (Color × List Char) :=
  match cs with
  | 'r' :: 'g' :: 'b' :: '(' :: r0 =>
    let p1 := takeDigits r0
    if p1.1 = [] then none else
    match p1.2 with
    | ',' :: r2 =>
      let p2 := takeDigits (skipWs r2)
      if p2.1 = [] then none else
      match p2.2 with
      | ',' :: r5 =>
        let p3 := takeDigits (skipWs r5)
        if p3.1 = [] then none else
        match p3.2 with
        | ')' :: r8 => some (⟨digitsVal p1.1, digitsVal p2.1, digitsVal p3.1⟩, r8)
        | _ => none
      | _ => none
    | _ => none
  | _ => none

/-- The semantics of `String.prototype.match` with the (unanchored) pattern: try every start
position left to right, return the first (leftmost) match. -/
def findRGB : List Char → Option Color
  | [] => none
  | c :: cs =>
    match tryMatch (c :: cs) with
    | some p => some p.1
    | none => findRGB cs

/-- The function `parseRGBColor` (`app.js:21-29`) as literally written: on a failed match
it recurses on `DEFAULT_BACKGROUND_COLOR`.  Embedded with explicit fuel so
that the self-recursion is represented exactly; `none` is the (unreachable
for fuel ≥ 2) out-of-fuel outcome. -/
def parseRGBColorAux : Nat → String → Option Color
  | 0, _ => none
  | fuel + 1, s =>
    match findRGB s.data with
    | some c => some c
    | none => parseRGBColorAux fuel DEFAULT_BACKGROUND_COLOR

/-- The function `parseRGBColor` (`app.js:21-29`) with the single fallback step unrolled:
the recursive call `parseRGBColor(DEFAULT_BACKGROUND_COLOR)` always matches,
so one unrolling is exact (a theorem below ties this definition to the
fueled embedding `parseRGBColorAux`).  The final arm is unreachable. -/
def parseRGBColor (s : String) : Color :=
  match findRGB s.data with
  | some c => c
  | none =>
    match findRGB DEFAULT_BACKGROUND_COLOR.data with
    | some c => c
    | none => ⟨0, 0, 0⟩

/-- JavaScript `backgroundColor || DEFAULT_BACKGROUND_COLOR` (`app.js:52`, `app.js:112`,
`app.js:139`): JavaScript `||` on an optional string treats the empty string
as falsy. -/
def jsOrStr (o : Option String) (dflt : String) : String :=
  match o with
  | some s => if s = "" then dflt else s
  | none => dflt

/-- The color actually used for the tint overlays: the request color string
defaulted through `||`, then parsed (`app.js:52`). -/
def resolveColor (bg : Option String) : Color :=
  parseRGBColor (jsOrStr bg DEFAULT_BACKGROUND_COLOR)

/-- Spec-side definition (from the spec's words, for comparison with the
code): a string matches "the `rgb(r,g,b)` pattern with r,g,b ∈ [0,255]" when
the *whole* string is of that form and every component is at most 255. -/
def specRGBMatch (s : String) : Option Color :=
  match tryMatch s.data with
  | some (c, []) =>
    if c.r ≤ 255 && c.g ≤ 255 && c.b ≤ 255 then some c else none
  | _ => none

/-! ## Dates (`app.js:148-151`)

`new Date(expiryDate)` followed by `setDate(getDate() + 1)`.  The JavaScript
`Date` built-in is part of the runtime, not of the repository; it is modelled
here for the date-only `YYYY-MM-DD` form of the ECMA-262 date-time string
format (the form the spec's scenarios use), with out-of-range fields giving
an invalid date, and `setDate(getDate() + 1)` performing one calendar-day
increment with month/year rollover. -/

/-- A civil (proleptic Gregorian) calendar date. -/
structure CivilDate where
  year : Nat
  month : Nat
  day : Nat
  deriving DecidableEq, Repr

/-- Gregorian leap-year rule. -/
def isLeap (y : Nat) : Bool := (y % 4 = 0 && y % 100 ≠ 0) || y % 400 = 0

/-- Number of days in a month. -/
def daysInMonth (y m : Nat) : Nat :=
  if m = 2 then (if isLeap y then 29 else 28)
  else if m = 4 || m = 6 || m = 9 || m = 11 then 30
  else 31

/-- One calendar day later (`expirationDate.setDate(expirationDate.getDate() + 1)`,
`app.js:150`). -/
def addOneDay (d : CivilDate) : CivilDate :=
  if d.day < daysInMonth d.year d.month then ⟨d.year, d.month, d.day + 1⟩
  else if d.month < 12 then ⟨d.year, d.month + 1, 1⟩
  else ⟨d.year + 1, 1, 1⟩

/-- The call `new Date(s)` (`app.js:149`) restricted to the date-only `YYYY-MM-DD`
form: four digit year, two digit month in 1–12, two digit day in range for
that month; anything else is an invalid date (`none`). -/
def jsDateParse (s : String) : Option CivilDate :=
  match s.data with
  | [y1, y2, y3, y4, '-', m1, m2, '-', d1, d2] =>
    if isDigitC y1 && isDigitC y2 && isDigitC y3 && isDigitC y4 &&
       isDigitC m1 && isDigitC m2 && isDigitC d1 && isDigitC d2 then
      let y := digitsVal [y1, y2, y3, y4]
      let m := digitsVal [m1, m2]
      let d := digitsVal [d1, d2]
      if 1 ≤ m && m ≤ 12 && 1 ≤ d && d ≤ daysInMonth y m then
        some ⟨y, m, d⟩
      else none
    else none
  | _ => none

/-! ## The pass manifest builder (`app.js:120-152`) -/

/-- The inbound request body fields read at `app.js:101-107`.  Optional
fields are `Option`; the code tests them with JavaScript truthiness, so the
empty string is distinguished from absence. -/
structure PassRequest where
  expiryDate : Option String := none
  serviceType : Option String := none
  discount : String := ""
  backgroundColor : Option String := none
  stripImage : Option String := none
  deriving DecidableEq, Repr

/-- The fields of the `models/pass.json` template that the handler reads or
overwrites.  The template file itself is not in the repository sources; only
the slots the code touches are modelled, with abstract default values. -/
structure Template where
  headerDefault : String
  primaryDefault : String
  secondaryDefault : String
  backgroundDefault : String
  serialDefault : String
  deriving DecidableEq, Repr

/-- A barcode descriptor (`app.js:125-130`). -/
structure Barcode where
  message : String
  format : String
  messageEncoding : String
  altText : String
  deriving DecidableEq, Repr

/-- The value sitting in the coupon header field: either a string left from
the template, or the `Date` object written at `app.js:151` (an invalid date
when `new Date(expiryDate)` failed to parse). -/
inductive HeaderVal where
  | str (s : String)
  | date (d : CivilDate)
  | invalid
  deriving DecidableEq, Repr

/-- The pass manifest (`passJson`) after the handler's updates: serial,
singular barcode, barcode list, background color, and the three coupon
field slots. -/
structure PassManifest where
  serialNumber : String
  barcode : Barcode
  barcodes : List Barcode
  backgroundColor : String
  headerValue : HeaderVal
  primaryValue : String
  secondaryValue : String
  deriving DecidableEq, Repr

/-- The barcode descriptor built at `app.js:125-136` (both slots get the
same one). -/
def mkBarcode (downloadUrl : String) : Barcode :=
  ⟨downloadUrl, "PKBarcodeFormatQR", "iso-8859-1", "QR code"⟩

/-- The download URL (`app.js:118`). -/
def mkDownloadUrl (protocol host uniqueId : String) : String :=
  protocol ++ "://" ++ host ++ "/passes/" ++ uniqueId ++ ".pkpass"

/-- The manifest construction of the handler (`app.js:120-152`): load the
template, overwrite serial and both barcode slots, set
`backgroundColor || DEFAULT_BACKGROUND_COLOR`, set the discount verbatim,
and overwrite the secondary/header fields only when the corresponding
request field is truthy. -/
def buildPassJson (tmpl : Template) (req : PassRequest)
    (uniqueId downloadUrl : String) : PassManifest :=
  { serialNumber := uniqueId
    barcode := mkBarcode downloadUrl
    barcodes := [mkBarcode downloadUrl]
    backgroundColor := jsOrStr req.backgroundColor DEFAULT_BACKGROUND_COLOR
    headerValue :=
      match req.expiryDate with
      | some s =>
        if s = "" then .str tmpl.headerDefault
        else
          match jsDateParse s with
          | some d => .date (addOneDay d)
          | none => .invalid
      | none => .str tmpl.headerDefault
    primaryValue := req.discount
    secondaryValue :=
      match req.serviceType with
      | some s => if s = "" then tmpl.secondaryDefault else s
      | none => tmpl.secondaryDefault }

/-! ## The request handler (`app.js:96-204`) -/

/-- The three fixed scratch paths written by `processBase64Image`
(`app.js:42`, `app.js:58`, `app.js:74`), in write order. -/
def scratchPaths : List String := ["/tmp/strip.png", "/tmp/strip@2x.png", "/tmp/strip@3x.png"]

/-- The environment of one request: everything the handler observes that is
not the request body.  `derivationFailsAt = some k` means the `sharp`
pipeline throws after `k` of the three tier files have been written
(`k = 0`: nothing written yet); `assembleOk = false` means some step after
image processing throws (template/icon read, `PKPass` signing, or the
archive write). -/
structure Env where
  timestampMs : Nat
  protocol : String
  host : String
  template : Template
  derivationFailsAt : Option Nat := none
  assembleOk : Bool := true
  deriving DecidableEq, Repr

/-- The success payload (`app.js:189-193`). -/
structure OkResponse where
  passUrl : String
  passId : String
  deriving DecidableEq, Repr

deriving instance DecidableEq for Except

/-- Observable outcome of one request: the HTTP response, the scratch files
still on disk after the handler finished, the manifest of a successfully
generated pass, and the persisted archive path. -/
structure RunResult where
  response : Except String OkResponse
  leftoverScratch : List String
  manifest : Option PassManifest
  archiveWritten : Option String
  deriving DecidableEq, Repr

/-- The function `cleanupFiles` (`app.js:87-93`) deletes every file in `toCleanup` that
exists; the result is what remains of `written`. -/
def cleanupLeftover (written toCleanup : List String) : List String :=
  written.filter (fun f => !(toCleanup.contains f))

/-- The tail of the handler after image processing (`app.js:116-203`):
mint `Date.now().toString()`, build URL and manifest, then either finish
successfully (sign, persist, clean up, respond) or hit the catch block
(clean up, error response).  `filesToCleanup` holds exactly the scratch
files written so far (they were all registered at `app.js:113`). -/
def finishPass (req : PassRequest) (env : Env) (filesToCleanup : List String) : RunResult :=
  let uniqueId := Nat.repr env.timestampMs
  let downloadUrl := mkDownloadUrl env.protocol env.host uniqueId
  let passJson := buildPassJson env.template req uniqueId downloadUrl
  if env.assembleOk then
    { response := .ok ⟨downloadUrl, uniqueId⟩
      leftoverScratch := cleanupLeftover filesToCleanup filesToCleanup
      manifest := some passJson
      archiveWritten := some ("temp/" ++ uniqueId ++ ".pkpass") }
  else
    { response := .error ("Failed to generate pass")
      leftoverScratch := cleanupLeftover filesToCleanup filesToCleanup
      manifest := none
      archiveWritten := none }

/-- The whole `POST /generate-pass` handler (`app.js:96-204`).  When an
image is supplied and derivation throws after `k` writes, the catch block
runs `cleanupFiles(filesToCleanup)` with `filesToCleanup` still empty
(`app.js:113` is only reached on success), so the `k` files written before
the failure survive. -/
def generatePass (req : PassRequest) (env : Env) : RunResult :=
  match req.stripImage with
  | some _ =>
    match env.derivationFailsAt with
    | some k =>
      { response := .error ("Image processing failed")
        leftoverScratch := cleanupLeftover (scratchPaths.take k) []
        manifest := none
        archiveWritten := none }
    | none => finishPass req env scratchPaths
  | none => finishPass req env []

/-- Is the response a success payload (`success: true`)? -/
def respOk : Except String OkResponse → Bool
  | .ok _ => true
  | .error _ => false

/-- The `passId` of a success payload. -/
def respPassId : Except String OkResponse → Option String
  | .ok r => some r.passId
  | .error _ => none

/-! ## Concrete sample data for counterexamples and witnesses -/

/-- A concrete template instance. -/
def sampleTemplate : Template :=
  ⟨"EXPIRES SOON", "DISCOUNT", "SERVICE", "rgb(0, 0, 0)", "0000"⟩

/-- A concrete benign environment. -/
def sampleEnv : Env :=
  { timestampMs := 1700, protocol := "https", host := "example.com",
    template := sampleTemplate }

/-- A concrete environment one millisecond later. -/
def sampleEnvLater : Env := { sampleEnv with timestampMs := 1701 }

/-- A concrete environment in which the `sharp` pipeline throws after the
first tier file has been written. -/
def sampleEnvDerivFail : Env := { sampleEnv with derivationFailsAt := some 1 }

/-- A request with a malformed background color. -/
def c1req : PassRequest := { discount := "20%", backgroundColor := some ("not-a-color") }

/-- A plain request exercising every display field. -/
def c2req : PassRequest :=
  { discount := "20%", serviceType := some ("Gold"), expiryDate := some ("2025-06-01") }

/-- The success payload of `c2req` under `sampleEnv`. -/
def c2resp : OkResponse := ⟨"https://example.com/passes/1700.pkpass", "1700"⟩

/-- The manifest generated for `c2req` under `sampleEnv`. -/
def c2manifest : PassManifest :=
  buildPassJson sampleTemplate c2req ("1700") ("https://example.com/passes/1700.pkpass")

/-- One of two concurrently served requests. -/
def c3reqA : PassRequest := { discount := "10%" }

/-- The other of two concurrently served requests. -/
def c3reqB : PassRequest := { discount := "20%" }

/-- A request carrying a (base64) strip image. -/
def c4req : PassRequest := { discount := "20%", stripImage := some ("aGk=") }

/-- A request with an expiry date. -/
def c6req : PassRequest := { discount := "20%", expiryDate := some ("2025-01-10") }

end PassApp

namespace PassApp

example : parseRGBColor ("rgb(10,20,30)") = ⟨10, 20, 30⟩ := by decide
example : parseRGBColor ("rgb(41, 128, 185)") = ⟨41, 128, 185⟩ := by decide
example : parseRGBColor ("not-a-color") = ⟨41, 128, 185⟩ := by decide
example : parseRGBColor ("xx rgb(999, 0, 0) yy") = ⟨999, 0, 0⟩ := by decide
example : specRGBMatch ("rgb(999, 0, 0)") = none := by decide
example : specRGBMatch ("rgb(1, 2, 3)") = some ⟨1, 2, 3⟩ := by decide
example : parseRGBColorAux 2 ("zzz") = some ⟨41, 128, 185⟩ := by decide
example : jsDateParse ("2025-01-10") = some ⟨2025, 1, 10⟩ := by decide
example : jsDateParse ("2025-02-30") = none := by decide
example : addOneDay ⟨2025, 1, 10⟩ = ⟨2025, 1, 11⟩ := by decide
example : addOneDay ⟨2024, 2, 29⟩ = ⟨2024, 3, 1⟩ := by decide
example : addOneDay ⟨2025, 12, 31⟩ = ⟨2026, 1, 1⟩ := by decide
example : Nat.repr 1700 = "1700" := by decide
example :
    (generatePass { discount := "20%", backgroundColor := some ("not-a-color") }
      sampleEnv).manifest =
    some (buildPassJson sampleTemplate
      { discount := "20%", backgroundColor := some ("not-a-color") }
      "1700" "https://example.com/passes/1700.pkpass") := by decide
example :
    (generatePass { discount := "20%", stripImage := some ("aGk=") }
      { sampleEnv with derivationFailsAt := some 1 }).leftoverScratch =
    ["/tmp/strip.png"] := by decide

/-! ## Supporting lemmas: cleanup -/

theorem cleanupLeftover_nil_right (l : List String) : cleanupLeftover l [] = l := by
  simp [cleanupLeftover]

theorem cleanupLeftover_self (l : List String) : cleanupLeftover l l = [] := by
  simp [cleanupLeftover]

/-! ## Supporting lemmas: decimal printing (`Date.now().toString()`)

`Nat.repr` is the embedding of `Number.prototype.toString` on the integer
returned by `Date.now()`; these lemmas show it is injective, by exhibiting
`digitsVal` as a left inverse. -/

theorem toDigitsCore_append (b : Nat) :
    ∀ (fuel n : Nat) (ds tail : List Char),
      Nat.toDigitsCore b fuel n (ds ++ tail) = Nat.toDigitsCore b fuel n ds ++ tail := by
  intro fuel
  induction fuel with
  | zero => intro n ds tail; rfl
  | succ f ih =>
    intro n ds tail
    simp only [Nat.toDigitsCore]
    by_cases h : n / b = 0
    · simp [h]
    · simp only [h, if_false]
      exact ih (n / b) (Nat.digitChar (n % b) :: ds) tail

theorem toDigitsCore_fuel :
    ∀ (fuel fuel' n : Nat) (ds : List Char), n < fuel → n < fuel' →
      Nat.toDigitsCore 10 fuel n ds = Nat.toDigitsCore 10 fuel' n ds := by
  intro fuel
  induction fuel with
  | zero => intro fuel' n ds h; omega
  | succ f ih =>
    intro fuel' n ds h h'
    match fuel', h' with
    | f' + 1, _ =>
      simp only [Nat.toDigitsCore]
      by_cases h0 : n / 10 = 0
      · simp [h0]
      · simp only [h0, if_false]
        have hlt : n / 10 < n := Nat.div_lt_self (by omega) (by norm_num)
        exact ih f' (n / 10) (Nat.digitChar (n % 10) :: ds) (by omega) (by omega)

theorem toDigits_lt_ten (n : Nat) (h : n < 10) :
    Nat.toDigits 10 n = [Nat.digitChar n] := by
  unfold Nat.toDigits
  simp only [Nat.toDigitsCore]
  rw [Nat.div_eq_of_lt h, Nat.mod_eq_of_lt h]
  simp

theorem toDigits_ge_ten (n : Nat) (h : 10 ≤ n) :
    Nat.toDigits 10 n = Nat.toDigits 10 (n / 10) ++ [Nat.digitChar (n % 10)] := by
  unfold Nat.toDigits
  simp only [Nat.toDigitsCore]
  have h0 : ¬ n / 10 = 0 := by
    have := Nat.div_pos h (by norm_num)
    omega
  simp only [h0, if_false]
  rw [show [Nat.digitChar (n % 10)] = [] ++ [Nat.digitChar (n % 10)] from rfl,
    toDigitsCore_append]
  have hlt : n / 10 < n := Nat.div_lt_self (by omega) (by norm_num)
  rw [toDigitsCore_fuel n (n / 10 + 1) (n / 10) [] (by omega) (by omega),
    List.nil_append]
  congr 1

theorem digitVal_digitChar (d : Nat) (h : d < 10) :
    digitVal (Nat.digitChar d) = d := by
  interval_cases d <;> decide

theorem digitsVal_append_one (l : List Char) (c : Char) :
    digitsVal (l ++ [c]) = 10 * digitsVal l + digitVal c := by
  simp [digitsVal, List.foldl_append]

theorem digitsVal_toDigits (n : Nat) : digitsVal (Nat.toDigits 10 n) = n := by
  induction n using Nat.strong_induction_on with
  | _ n ih =>
    by_cases h : n < 10
    · rw [toDigits_lt_ten n h]
      simp [digitsVal, digitVal_digitChar n h]
    · rw [toDigits_ge_ten n (by omega), digitsVal_append_one]
      rw [ih (n / 10) (Nat.div_lt_self (by omega) (by norm_num))]
      rw [digitVal_digitChar (n % 10) (Nat.mod_lt _ (by norm_num))]
      omega

theorem natRepr_injective {a b : Nat} (h : Nat.repr a = Nat.repr b) : a = b := by
  have hd : Nat.toDigits 10 a = Nat.toDigits 10 b := congrArg String.data h
  have := congrArg digitsVal hd
  rwa [digitsVal_toDigits, digitsVal_toDigits] at this

/-! ## Supporting lemmas: the regex matcher -/

theorem findRGB_of_tryMatch {cs : List Char} {p : Color × List Char}
    (h : tryMatch cs = some p) : findRGB cs = some p.1 := by
  match cs with
  | [] => simp [tryMatch] at h
  | c :: rest => simp [findRGB, h]

theorem digit_not_ws {c : Char} (h : isDigitC c = true) : isJsWs c = false := by
  simp only [isDigitC, Bool.and_eq_true, decide_eq_true_eq] at h
  simp only [isJsWs, Bool.or_eq_false_iff, decide_eq_false_iff_not]
  omega

theorem takeDigits_append_stop {ds : List Char} (x : Char) (rest : List Char)
    (hds : ∀ c ∈ ds, isDigitC c = true) (hx : isDigitC x = false) :
    takeDigits (ds ++ x :: rest) = (ds, x :: rest) := by
  induction ds with
  | nil => simp [takeDigits, hx]
  | cons c t ih =>
    have hc : isDigitC c = true := hds c (by simp)
    have ht : ∀ c ∈ t, isDigitC c = true := fun c hmem => hds c (by simp [hmem])
    simp [takeDigits, hc, ih ht]

theorem skipWs_append_stop {ws : List Char} (x : Char) (rest : List Char)
    (hws : ∀ c ∈ ws, isJsWs c = true) (hx : isJsWs x = false) :
    skipWs (ws ++ x :: rest) = x :: rest := by
  induction ws with
  | nil => simp [skipWs, hx]
  | cons c t ih =>
    have hc : isJsWs c = true := hws c (by simp)
    simp [skipWs, hc]
    exact ih fun d hmem => hws d (by simp [hmem])

theorem tryMatch_pattern (d1 ws1 d2 ws2 d3 rest : List Char)
    (h1 : d1 ≠ []) (hd1 : ∀ c ∈ d1, isDigitC c = true)
    (h2 : d2 ≠ []) (hd2 : ∀ c ∈ d2, isDigitC c = true)
    (h3 : d3 ≠ []) (hd3 : ∀ c ∈ d3, isDigitC c = true)
    (hw1 : ∀ c ∈ ws1, isJsWs c = true) (hw2 : ∀ c ∈ ws2, isJsWs c = true) :
    tryMatch ('r' :: 'g' :: 'b' :: '(' ::
        (d1 ++ ',' :: (ws1 ++ (d2 ++ ',' :: (ws2 ++ (d3 ++ ')' :: rest)))))) =
      some (⟨digitsVal d1, digitsVal d2, digitsVal d3⟩, rest) := by
  obtain ⟨c2, d2x, rfl⟩ := List.exists_cons_of_ne_nil h2
  obtain ⟨c3, d3x, rfl⟩ := List.exists_cons_of_ne_nil h3
  have hc2 : isDigitC c2 = true := hd2 c2 (by simp)
  have hc3 : isDigitC c3 = true := hd3 c3 (by simp)
  have e1 := takeDigits_append_stop ','
    (ws1 ++ (c2 :: (d2x ++ ',' :: (ws2 ++ (c3 :: (d3x ++ ')' :: rest)))))) hd1 (by decide)
  have e2 := skipWs_append_stop c2
    (d2x ++ ',' :: (ws2 ++ (c3 :: (d3x ++ ')' :: rest)))) hw1 (digit_not_ws hc2)
  have e3 := takeDigits_append_stop ','
    (ws2 ++ (c3 :: (d3x ++ ')' :: rest))) hd2 (by decide)
  have e4 := skipWs_append_stop c3
    (d3x ++ ')' :: rest) hw2 (digit_not_ws hc3)
  have e5 := takeDigits_append_stop ')' rest hd3 (by decide)
  simp only [tryMatch, List.cons_append, List.append_assoc, List.nil_append] at e1 e2 e3 e4 e5 ⊢
  simp [e1, e2, e3, e4, e5, h1]

theorem findRGB_append_isSome (pre rest : List Char)
    (h : (tryMatch rest).isSome = true) : (findRGB (pre ++ rest)).isSome = true := by
  induction pre with
  | nil =>
    match rest, h with
    | c :: cs, h =>
      simp only [List.nil_append, findRGB]
      cases htm : tryMatch (c :: cs) with
      | some p => simp
      | none => rw [htm] at h; simp at h
  | cons c t ih =>
    simp only [List.cons_append, findRGB]
    cases htm : tryMatch (c :: (t ++ rest)) with
    | some p => simp
    | none => simpa using ih

/-! ## Claims about the color parser -/

/-- C8: `parseRGBColor` is total and terminating on every string.  The
fueled embedding `parseRGBColorAux` of the literal self-recursion returns a
color for every input as soon as the fuel allows one fallback step (fuel 2),
because the fallback argument `DEFAULT_BACKGROUND_COLOR` itself matches the
pattern; the result is the unrolled function `parseRGBColor`. -/
theorem c8_parseRGBColor_total (fuel : Nat) (s : String) (h : 2 ≤ fuel) :
    parseRGBColorAux fuel s = some (parseRGBColor s) := by
  obtain ⟨n, rfl⟩ : ∃ n, fuel = n + 2 := ⟨fuel - 2, by omega⟩
  have hdef : findRGB DEFAULT_BACKGROUND_COLOR.data = some ⟨41, 128, 185⟩ := by decide
  cases hf : findRGB s.data with
  | some c => simp [parseRGBColorAux, parseRGBColor, hf]
  | none => simp [parseRGBColorAux, parseRGBColor, hf, hdef]

/-- Witness for C8 at fuel 2 and a concrete non-matching string. -/
theorem c8_parseRGBColor_total_witness :
    2 ≤ 2 ∧ parseRGBColorAux 2 ("zzz") = some (parseRGBColor ("zzz")) :=
  ⟨by decide, c8_parseRGBColor_total 2 ("zzz") (by decide)⟩

/-- C9: the pattern is not anchored and components are not clamped.  Any
string containing a substring `rgb(d1,<ws>d2,<ws>d3)` (arbitrary nonempty
digit runs, arbitrary whitespace after the commas) is accepted — `findRGB`
yields a match and `parseRGBColor` returns it rather than the default — and
an input containing `rgb(999, 0, 0)` resolves to r = 999 with no clamping
to 255. -/
theorem c9_unanchored_unclamped :
    (∀ pre d1 ws1 d2 ws2 d3 post : String,
      d1.data ≠ [] → (∀ c ∈ d1.data, isDigitC c = true) →
      d2.data ≠ [] → (∀ c ∈ d2.data, isDigitC c = true) →
      d3.data ≠ [] → (∀ c ∈ d3.data, isDigitC c = true) →
      (∀ c ∈ ws1.data, isJsWs c = true) → (∀ c ∈ ws2.data, isJsWs c = true) →
      ∃ c, findRGB (pre ++ "rgb(" ++ d1 ++ "," ++ ws1 ++ d2 ++ "," ++ ws2
          ++ d3 ++ ")" ++ post).data = some c ∧
        parseRGBColor (pre ++ "rgb(" ++ d1 ++ "," ++ ws1 ++ d2 ++ "," ++ ws2
          ++ d3 ++ ")" ++ post) = c) ∧
    parseRGBColor ("background: rgb(999, 0, 0);") = ⟨999, 0, 0⟩ := by
  constructor
  · intro pre d1 ws1 d2 ws2 d3 post h1 hd1 h2 hd2 h3 hd3 hw1 hw2
    have hdata : (pre ++ "rgb(" ++ d1 ++ "," ++ ws1 ++ d2 ++ "," ++ ws2
        ++ d3 ++ ")" ++ post).data
        = pre.data ++ ('r' :: 'g' :: 'b' :: '(' :: (d1.data ++ ',' ::
          (ws1.data ++ (d2.data ++ ',' :: (ws2.data ++ (d3.data ++ ')' ::
            post.data)))))) := by
      have hr : ("rgb(" : String).data = ['r', 'g', 'b', '('] := rfl
      have hcm : ("," : String).data = [','] := rfl
      have hcp : (")" : String).data = [')'] := rfl
      simp [hr, hcm, hcp]
    have htm := tryMatch_pattern d1.data ws1.data d2.data ws2.data d3.data
      post.data h1 hd1 h2 hd2 h3 hd3 hw1 hw2
    have hfind := findRGB_append_isSome pre.data
      ('r' :: 'g' :: 'b' :: '(' :: (d1.data ++ ',' :: (ws1.data ++ (d2.data
        ++ ',' :: (ws2.data ++ (d3.data ++ ')' :: post.data))))))
      (by simp [htm])
    rw [← hdata] at hfind
    obtain ⟨c, hc⟩ := Option.isSome_iff_exists.mp hfind
    refine ⟨c, hc, ?_⟩
    unfold parseRGBColor
    rw [hc]
  · decide

/-- Witness for C9: a containing string built from concrete pieces. -/
theorem c9_unanchored_unclamped_witness :
    ∃ c, findRGB ("background: " ++ "rgb(" ++ "999" ++ "," ++ " " ++ "0"
        ++ "," ++ " " ++ "0" ++ ")" ++ ";").data = some c ∧
      parseRGBColor ("background: " ++ "rgb(" ++ "999" ++ "," ++ " " ++ "0"
        ++ "," ++ " " ++ "0" ++ ")" ++ ";") = c :=
  c9_unanchored_unclamped.1 ("background: ") ("999") (" ") ("0") (" ") ("0") (";")
    (by decide) (by decide) (by decide) (by decide) (by decide) (by decide)
    (by decide) (by decide)

/-- C5 counterexample: `"rgb(999, 0, 0)"` does not match the spec's pattern
(its first component exceeds 255), yet the resolved color is `(999, 0, 0)`,
not the fixed default — so "for every non-matching string the resolved
Color equals the default" is false as stated. -/
theorem c5_counterexample :
    specRGBMatch ("rgb(999, 0, 0)") = none ∧
    parseRGBColor ("rgb(999, 0, 0)") = ⟨999, 0, 0⟩ ∧
    (⟨999, 0, 0⟩ : Color) ≠ ⟨41, 128, 185⟩ := by decide

/-- C5 (amended): every string that is exactly `rgb(r, g, b)` with
components in [0,255] resolves to the parsed triple; every string in which
the pattern occurs nowhere (not even as a substring) resolves to the default
`rgb(41, 128, 185)`, as does an absent color. -/
theorem c5_resolved_color :
    (∀ s c, specRGBMatch s = some c → parseRGBColor s = c) ∧
    (∀ s, findRGB s.data = none → parseRGBColor s = ⟨41, 128, 185⟩) ∧
    resolveColor none = ⟨41, 128, 185⟩ := by
  have hdef : findRGB DEFAULT_BACKGROUND_COLOR.data = some ⟨41, 128, 185⟩ := by decide
  refine ⟨?_, ?_, by decide⟩
  · intro s c h
    unfold specRGBMatch at h
    split at h
    case _ c' heq =>
      split at h
      · cases h
        have hf := findRGB_of_tryMatch heq
        simp [parseRGBColor, hf]
      · exact absurd h (by simp)
    case _ => exact absurd h (by simp)
  · intro s h
    simp [parseRGBColor, h, hdef]

/-- Witness for C5 (amended): a concrete in-range color string. -/
theorem c5_resolved_color_witness :
    specRGBMatch ("rgb(10, 20, 30)") = some ⟨10, 20, 30⟩ ∧
    parseRGBColor ("rgb(10, 20, 30)") = ⟨10, 20, 30⟩ :=
  ⟨by decide, c5_resolved_color.1 ("rgb(10, 20, 30)") ⟨10, 20, 30⟩ (by decide)⟩

/-! ## Supporting lemmas: the handler -/

theorem finishPass_leftover (req : PassRequest) (env : Env) (l : List String) :
    (finishPass req env l).leftoverScratch = [] := by
  unfold finishPass
  by_cases h : env.assembleOk <;> simp [h, cleanupLeftover_self]

theorem response_ok_elim {req : PassRequest} {env : Env} {r : OkResponse}
    (h : (generatePass req env).response = .ok r) :
    env.assembleOk = true ∧
    r.passId = Nat.repr env.timestampMs ∧
    r.passUrl = mkDownloadUrl env.protocol env.host (Nat.repr env.timestampMs) ∧
    (generatePass req env).manifest =
      some (buildPassJson env.template req (Nat.repr env.timestampMs)
        (mkDownloadUrl env.protocol env.host (Nat.repr env.timestampMs))) ∧
    (generatePass req env).archiveWritten =
      some ("temp/" ++ Nat.repr env.timestampMs ++ ".pkpass") := by
  unfold generatePass at h ⊢
  cases hs : req.stripImage with
  | none =>
    rw [hs] at h
    by_cases ha : env.assembleOk
    · simp only [finishPass, ha, if_true] at h ⊢
      injection h with h
      subst h
      simp [ha]
    · simp [finishPass, ha] at h
  | some s =>
    rw [hs] at h
    cases hd : env.derivationFailsAt with
    | some k =>
      rw [hd] at h
      simp at h
    | none =>
      rw [hd] at h
      by_cases ha : env.assembleOk
      · simp only [finishPass, ha, if_true] at h ⊢
        injection h with h
        subst h
        simp [ha]
      · simp [finishPass, ha] at h

/-! ## Claims about the handler -/

/-- C1 counterexample: with `backgroundColor: "not-a-color"` — present but
not parseable (`findRGB` finds no match) — the request succeeds, but the
manifest stores the raw string `"not-a-color"`, not the fixed system
default. -/
theorem c1_counterexample :
    (generatePass c1req sampleEnv).response =
      Except.ok ⟨"https://example.com/passes/1700.pkpass", "1700"⟩ ∧
    (generatePass c1req sampleEnv).manifest.map PassManifest.backgroundColor =
      some ("not-a-color") ∧
    findRGB ("not-a-color").data = none ∧
    "not-a-color" ≠ DEFAULT_BACKGROUND_COLOR := by decide

/-- C1 (amended): the manifest stores
`backgroundColor || DEFAULT_BACKGROUND_COLOR` — the raw request string
whenever it is nonempty (parseable or not), the system default only when
the field is absent or empty — and whether the request succeeds never
depends on the color field. -/
theorem c1_background_stored (req : PassRequest) (env : Env) :
    (generatePass req env).manifest.map PassManifest.backgroundColor =
      (generatePass req env).manifest.map
        (fun _ => jsOrStr req.backgroundColor DEFAULT_BACKGROUND_COLOR) ∧
    respOk (generatePass req env).response =
      respOk (generatePass { req with backgroundColor := none } env).response := by
  unfold generatePass finishPass
  cases hs : req.stripImage with
  | none =>
    by_cases ha : env.assembleOk <;> simp [hs, ha, buildPassJson, respOk]
  | some s =>
    cases hd : env.derivationFailsAt with
    | some k => simp [hs, hd, respOk]
    | none =>
      by_cases ha : env.assembleOk <;> simp [hs, hd, ha, buildPassJson, respOk]

/-- C2: for every successfully generated pass, the manifest's serial, the
identifier inside the singular barcode's message URL, the identifier inside
the first (only) element of the barcode list, and the filename stem of the
persisted archive are all the same identifier (the response's `passId`). -/
theorem c2_serial_consistency (req : PassRequest) (env : Env)
    (r : OkResponse) (m : PassManifest)
    (hr : (generatePass req env).response = .ok r)
    (hm : (generatePass req env).manifest = some m) :
    m.serialNumber = r.passId ∧
    m.barcode.message = mkDownloadUrl env.protocol env.host r.passId ∧
    m.barcodes = [m.barcode] ∧
    (generatePass req env).archiveWritten =
      some ("temp/" ++ r.passId ++ ".pkpass") ∧
    r.passUrl = mkDownloadUrl env.protocol env.host r.passId := by
  obtain ⟨ha, hid, hurl, hman, harch⟩ := response_ok_elim hr
  rw [hman] at hm
  cases hm
  refine ⟨?_, ?_, ?_, ?_, ?_⟩ <;>
    simp [buildPassJson, mkBarcode, hid, hurl, harch]

/-- Witness for C2 at a concrete request and environment. -/
theorem c2_serial_consistency_witness :
    ((generatePass c2req sampleEnv).response = Except.ok c2resp ∧
     (generatePass c2req sampleEnv).manifest = some c2manifest) ∧
    (c2manifest.serialNumber = c2resp.passId ∧
     c2manifest.barcode.message = mkDownloadUrl ("https") ("example.com") c2resp.passId ∧
     c2manifest.barcodes = [c2manifest.barcode] ∧
     (generatePass c2req sampleEnv).archiveWritten =
       some ("temp/" ++ c2resp.passId ++ ".pkpass") ∧
     c2resp.passUrl = mkDownloadUrl ("https") ("example.com") c2resp.passId) :=
  ⟨⟨by decide, by decide⟩,
    c2_serial_consistency c2req sampleEnv c2resp c2manifest (by decide) (by decide)⟩

/-- C3 counterexample: two different concurrently live requests that observe
the same `Date.now()` millisecond (the same `timestampMs`) both succeed and
are minted the *same* serial `"1700"` — uniqueness across concurrently live
requests is not guaranteed. -/
theorem c3_counterexample :
    respOk (generatePass c3reqA sampleEnv).response = true ∧
    respOk (generatePass c3reqB sampleEnv).response = true ∧
    c3reqA ≠ c3reqB ∧
    respPassId (generatePass c3reqA sampleEnv).response = some ("1700") ∧
    respPassId (generatePass c3reqB sampleEnv).response = some ("1700") := by decide

/-- C3 (amended): serials minted from different `Date.now()` values are
distinct (decimal printing of the timestamp is injective); only requests
served within the same millisecond collide. -/
theorem c3_distinct_timestamps (req1 req2 : PassRequest) (env1 env2 : Env)
    (r1 r2 : OkResponse)
    (h1 : (generatePass req1 env1).response = .ok r1)
    (h2 : (generatePass req2 env2).response = .ok r2)
    (ht : env1.timestampMs ≠ env2.timestampMs) :
    r1.passId ≠ r2.passId := by
  obtain ⟨-, hid1, -⟩ := response_ok_elim h1
  obtain ⟨-, hid2, -⟩ := response_ok_elim h2
  rw [hid1, hid2]
  intro h
  exact ht (natRepr_injective h)

/-- Witness for C3 (amended): one millisecond apart, serials differ. -/
theorem c3_distinct_timestamps_witness :
    ((generatePass c3reqA sampleEnv).response =
       Except.ok ⟨"https://example.com/passes/1700.pkpass", "1700"⟩ ∧
     (generatePass c3reqB sampleEnvLater).response =
       Except.ok ⟨"https://example.com/passes/1701.pkpass", "1701"⟩ ∧
     sampleEnv.timestampMs ≠ sampleEnvLater.timestampMs) ∧
    OkResponse.passId ⟨"https://example.com/passes/1700.pkpass", "1700"⟩ ≠
      OkResponse.passId ⟨"https://example.com/passes/1701.pkpass", "1701"⟩ :=
  ⟨⟨by decide, by decide, by decide⟩,
    c3_distinct_timestamps c3reqA c3reqB sampleEnv sampleEnvLater _ _
      (by decide) (by decide) (by decide)⟩

/-- C4 counterexample: when image derivation itself fails partway (here
after writing the first tier), the request fails but the scratch file
written before the failure is *not* deleted — `filesToCleanup` is only
populated after `processBase64Image` returns, so the catch-block cleanup
removes nothing. -/
theorem c4_counterexample :
    respOk (generatePass c4req sampleEnvDerivFail).response = false ∧
    (generatePass c4req sampleEnvDerivFail).leftoverScratch =
      ["/tmp/strip.png"] := by decide

/-- C4 (amended): scratch files are all deleted before the response on the
success path and on every failure path that occurs *after* image derivation
completed; but when derivation itself fails after `k` tier writes, exactly
those `k` already-written files survive. -/
theorem c4_cleanup (req : PassRequest) (env : Env) :
    ((req.stripImage.isSome = true → env.derivationFailsAt = none) →
      (generatePass req env).leftoverScratch = []) ∧
    (∀ k s, req.stripImage = some s → env.derivationFailsAt = some k →
      (generatePass req env).leftoverScratch = scratchPaths.take k) := by
  constructor
  · intro h
    unfold generatePass
    cases hs : req.stripImage with
    | none => simp [finishPass_leftover]
    | some s =>
      have hd : env.derivationFailsAt = none := h (by simp [hs])
      simp [hd, finishPass_leftover]
  · intro k s hs hk
    unfold generatePass
    simp [hs, hk, cleanupLeftover_nil_right]

/-- Witness for C4 (amended): an image-bearing request whose derivation
succeeds leaves no scratch files behind. -/
theorem c4_cleanup_witness :
    (generatePass c4req sampleEnv).leftoverScratch = [] :=
  (c4_cleanup c4req sampleEnv).1 (fun _ => rfl)

/-- C6: when the request provides an expiry date (in the `YYYY-MM-DD` form
the date model covers), the manifest's coupon header field holds the
supplied date plus one calendar day; when no expiry date is provided, the
header field keeps the template default. -/
theorem c6_expiry_plus_one (tmpl : Template) (req : PassRequest)
    (uid url : String) :
    (∀ s d, req.expiryDate = some s → jsDateParse s = some d →
      (buildPassJson tmpl req uid url).headerValue = .date (addOneDay d)) ∧
    (req.expiryDate = none →
      (buildPassJson tmpl req uid url).headerValue = .str tmpl.headerDefault) := by
  constructor
  · intro s d hs hd
    have hne : s ≠ "" := by
      intro he
      subst he
      rw [show jsDateParse ("") = none from rfl] at hd
      exact Option.noConfusion hd
    simp [buildPassJson, hs, hne, hd]
  · intro h
    simp [buildPassJson, h]

/-- Witness for C6: expiry `2025-01-10` yields a header reflecting
`2025-01-11`. -/
theorem c6_expiry_plus_one_witness :
    (buildPassJson sampleTemplate c6req ("1700") ("u")).headerValue =
      .date (addOneDay ⟨2025, 1, 10⟩) ∧
    addOneDay ⟨2025, 1, 10⟩ = ⟨2025, 1, 11⟩ :=
  ⟨(c6_expiry_plus_one sampleTemplate c6req ("1700") ("u")).1 ("2025-01-10")
      ⟨2025, 1, 10⟩ rfl (by decide),
    by decide⟩

/-- C7: the coupon primary field holds the request's discount text
verbatim, with no reformatting. -/
theorem c7_discount_verbatim (tmpl : Template) (req : PassRequest)
    (uid url : String) :
    (buildPassJson tmpl req uid url).primaryValue = req.discount := rfl

/-- C10: a `serviceType` or `expiryDate` that is present but equal to the
empty string is treated exactly like an absent one — the whole manifest is
the same, and the secondary and header fields keep their template
defaults (the provided/absent distinction is a JavaScript truthiness
test). -/
theorem c10_empty_string_as_absent (tmpl : Template) (req : PassRequest)
    (uid url : String) :
    buildPassJson tmpl
        { req with serviceType := some (""), expiryDate := some ("") } uid url =
      buildPassJson tmpl
        { req with serviceType := none, expiryDate := none } uid url ∧
    (buildPassJson tmpl
        { req with serviceType := some (""), expiryDate := some ("") } uid
        url).secondaryValue = tmpl.secondaryDefault ∧
    (buildPassJson tmpl
        { req with serviceType := some (""), expiryDate := some ("") } uid
        url).headerValue = .str tmpl.headerDefault := by
  refine ⟨?_, by simp [buildPassJson], by simp [buildPassJson]⟩
  simp [buildPassJson]

end PassApp
